import Mathlib

/-!
Shallow embedding of `health_checker.py` (and its older revision) together
with proofs of the specification claims about it.

Modelling conventions:
  * network and filesystem effects are inputs: an `HttpOutcome` models what a
    `requests.get`/`requests.post` call produced (a response with a status
    code, or a raised transport exception with its description); an
    `SmtpOutcome` models the result of the SMTP session in the email channel;
    a `FileWriteOutcome` models the attempt to append to the secondary log
    file;
  * every Python function is embedded as a total Lean function from its
    inputs (including the effect outcomes above) to its observable behaviour:
    its return value plus the trace of records it passed to `emit_log` and
    the channel invocations it made.  Totality of the Lean function is the
    embedding of "no exception escapes this boundary";
  * Python string operations used by the code (`str.strip`, `str.split(",")`,
    `str.startswith`, the `in` substring test) are embedded as executable
    functions on `List Char`, the character data of the string.
-/

namespace HealthChecker

/-- Default whitespace set of Python `str.strip()`:
space, tab, newline, carriage return, vertical tab, form feed. -/
def isPySpace (c : Char) : Bool :=
  c == ' ' || c == '\t' || c == '\n' || c == '\r' || c == '\x0b' || c == '\x0c'

/-- Embedding of Python `str.strip()` on the character list of a string. -/
def pyStrip (l : List Char) : List Char :=
  ((l.dropWhile isPySpace).reverse.dropWhile isPySpace).reverse

/-- Embedding of Python `str.split(",")` on the character list of a string:
splits at every comma and keeps empty segments, so `"".split(",") = [""]`. -/
def splitComma : List Char → List (List Char)
  | [] => [[]]
  | c :: cs =>
    if c = ',' then [] :: splitComma cs
    else
      match splitComma cs with
      | [] => [[c]]
      | seg :: rest => (c :: seg) :: rest

/-- DEFAULT_URLS from the config section of `health_checker.py`. -/
def DEFAULT_URLS : List String :=
  ["https://www.google.com", "https://www.github.com"]

/-- Embedding of `parse_urls`.  `env` is the value of
`os.getenv("URLS", "")`, so an unset variable is the empty string.  The list
comprehension `[u.strip() for u in env.split(",") if u.strip()]` is embedded
as a `filterMap` over the comma-split segments. -/
def parse_urls (env : String) : List String :=
  if pyStrip env.data ≠ [] then
    (splitComma env.data).filterMap fun u =>
      if pyStrip u ≠ [] then some (String.mk (pyStrip u)) else none
  else DEFAULT_URLS

/-- Outcome of an HTTP request made through the `requests` library: either a
response carrying a status code, or a raised transport exception
(connection refused, DNS failure, timeout, TLS error, ...) carrying the text
of the exception. -/
inductive HttpOutcome where
  | response (statusCode : Nat)
  | transportError (desc : String)
deriving DecidableEq

/-- Embedding of `check_url` (current version): classifies the outcome of
`requests.get(url, timeout=5)` into a status string.  The function is total:
every transport error is converted to a `DOWN` string, which embeds the
source's `except requests.exceptions.RequestException` handler. -/
def check_url (o : HttpOutcome) : String :=
  match o with
  | .response code =>
      if code = 200 then "UP" else "DOWN (" ++ toString code ++ ")"
  | .transportError e => "DOWN (Error: " ++ e ++ ")"

/-- Embedding of `check_url` from `older version/health_checker.py`; its body
is the classification of that revision, written out independently so the two
revisions can be compared. -/
def check_url_old (o : HttpOutcome) : String :=
  match o with
  | .response code =>
      if code = 200 then "UP" else "DOWN (" ++ toString code ++ ")"
  | .transportError e => "DOWN (Error: " ++ e ++ ")"

/-- Decides whether `p` occurs at the very start of `l`
(the core of Python `str.startswith`). -/
def listHasPre : List Char → List Char → Bool
  | [], _ => true
  | _ :: _, [] => false
  | p :: ps, c :: cs => p == c && listHasPre ps cs

/-- Decides whether `p` occurs as a contiguous run anywhere in `l`
(the core of the Python `in` substring test). -/
def listHasSub (p : List Char) : List Char → Bool
  | [] => p.isEmpty
  | c :: cs => listHasPre p (c :: cs) || listHasSub p cs

/-- Embedding of `status.startswith("DOWN")`, the alert condition of the
current `log_result`. -/
def startsWithDOWN (s : String) : Bool :=
  listHasPre "DOWN".data s.data

/-- Embedding of `"DOWN" in status`, the alert condition of the older
version's `main`. -/
def containsDOWN (s : String) : Bool :=
  listHasSub "DOWN".data s.data

/-- Semantic down-ness of a probe outcome: anything other than an HTTP 200
response. -/
def isDownOutcome (o : HttpOutcome) : Bool :=
  match o with
  | .response code => if code = 200 then false else true
  | .transportError _ => true

/-- Shapes of the records the program passes to `emit_log`: the per-check
result entry `{"timestamp":..,"url":..,"status":..}`, the alert record
`{"ALERT":..}` and the error record `{"error":..}`. -/
inductive LogRecord where
  | result (timestamp url status : String)
  | alert (text : String)
  | error (msg : String)
deriving DecidableEq

/-- Embedding of `json.dumps` on the three record shapes the program emits
(string escaping inside the values is not modelled; no claim depends on it). -/
def serialize : LogRecord → String
  | .result ts url status =>
      "\x7b\"timestamp\": \"" ++ ts ++ "\", \"url\": \"" ++ url ++
        "\", \"status\": \"" ++ status ++ "\"\x7d"
  | .alert text => "\x7b\"ALERT\": \"" ++ text ++ "\"\x7d"
  | .error msg => "\x7b\"error\": \"" ++ msg ++ "\"\x7d"

/-- Process-wide configuration loaded from the environment at the top of
`health_checker.py`.  `smtp_port` is `none` when `SMTP_PORT` is unset
(the source sets the Python variable to `None` in that case) and `some n`
when it parses to the integer `n`. -/
structure Config where
  log_file : String
  slack_webhook : String
  alert_email_to : String
  alert_email_from : String
  smtp_server : String
  smtp_port : Option Nat
  smtp_user : String
  smtp_pass : String
deriving DecidableEq

/-- Python truthiness of the `SMTP_PORT` value (`None` and `0` are falsy). -/
def portTruthy : Option Nat → Bool
  | none => false
  | some n => if n = 0 then false else true

/-- Embedding of the Python test `SMTP_USER is not None` in
`send_email_alert`: `SMTP_USER` is produced by
`os.getenv("SMTP_USER", "").strip()` and is therefore always a `str`, never
`None`, so the test is constantly true regardless of the configuration. -/
def smtpUserIsNotNone (_ : Config) : Bool := true

/-- Outcome of the attempt to append a line to the secondary log file
(the whole `try` block of `emit_log`: `os.makedirs` plus the write). -/
inductive FileWriteOutcome where
  | ok
  | failure (desc : String)
deriving DecidableEq

/-- Observable behaviour of one `emit_log` call: the lines printed to the
primary output stream, in order, and the data appended to the secondary
log file. -/
structure EmitTrace where
  primary : List String
  fileWrites : List String
deriving DecidableEq

/-- Embedding of `emit_log`.  The serialized line is printed first,
unconditionally; only then, when `LOG_FILE` is truthy (non-empty), the file
append is attempted, and a failure is caught and reported as an error record
on the primary stream.  Totality embeds "the logger never raises". -/
def emit_log (log_file : String) (entry : LogRecord) (fw : FileWriteOutcome) :
    EmitTrace :=
  let line := serialize entry
  if log_file ≠ "" then
    match fw with
    | .ok => ⟨[line], [line ++ "\n"]⟩
    | .failure e =>
        ⟨[line, serialize (.error ("failed to write log file: " ++ e))], []⟩
  else ⟨[line], []⟩

/-- Outcome of the SMTP session in `send_email_alert`: the message was
handed to the server, or some step (connect, STARTTLS, login, send) raised. -/
inductive SmtpOutcome where
  | delivered
  | failure (desc : String)
deriving DecidableEq

/-- Observable behaviour of one `send_email_alert` call: the boolean it
returns, whether an SMTP connection was opened (a delivery attempt was
made), and the records it passed to `emit_log`. -/
structure EmailSendTrace where
  result : Bool
  attempted : Bool
  logs : List LogRecord
deriving DecidableEq

/-- Embedding of `send_email_alert`.  The guard embeds
`if not (SMTP_SERVER and SMTP_PORT and SMTP_USER is not None)` literally:
server truthy, port truthy, and the (constantly true) `is not None` test on
the user — see `smtpUserIsNotNone`.  When the guard does not fire, an SMTP
connection is opened and any failure is caught, logged and reported as
`false`. -/
def send_email_alert (cfg : Config)
    (to_addr from_addr subject body : String) (smtp : SmtpOutcome) :
    EmailSendTrace :=
  if !(cfg.smtp_server != "" && portTruthy cfg.smtp_port &&
        smtpUserIsNotNone cfg) then
    ⟨false, false, [.error ("SMTP not configured, skipping email alert")]⟩
  else
    match smtp with
    | .delivered => ⟨true, true, []⟩
    | .failure e => ⟨false, true, [.error ("email send failed: " ++ e)]⟩

/-- Embedding of `send_slack_alert`: returns whether the POST got an HTTP
200 response; a raised exception is caught, logged via `emit_log`, and the
function returns `false`.  First component: the returned boolean; second:
the records passed to `emit_log`. -/
def send_slack_alert (webhook text : String) (post : HttpOutcome) :
    Bool × List LogRecord :=
  match post with
  | .response code => (code == 200, [])
  | .transportError e => (false, [.error ("slack send failed: " ++ e)])

/-- Observable behaviour of one `log_result` call: the records it passed to
`emit_log` (directly or through a channel), in order, and the alert texts
with which each channel was invoked. -/
structure DispatchTrace where
  logs : List LogRecord
  slackCalls : List String
  emailCalls : List String
deriving DecidableEq

/-- Embedding of `log_result`: emits the result entry, and when the status
starts with `"DOWN"` emits exactly one ALERT record and invokes each enabled
channel (webhook enabled iff `SLACK_WEBHOOK` is non-empty, email enabled iff
`ALERT_EMAIL_TO` is non-empty) with the alert text.  `slackPost` and `smtp`
are the network outcomes the two channels would encounter. -/
def log_result (cfg : Config) (timestamp url status : String)
    (slackPost : HttpOutcome) (smtp : SmtpOutcome) : DispatchTrace :=
  let entry : LogRecord := .result timestamp url status
  if startsWithDOWN status then
    let alert_text := "⚠️ " ++ url ++ " is " ++ status
    let slackPart : List LogRecord × List String :=
      if cfg.slack_webhook != "" then
        ((send_slack_alert cfg.slack_webhook alert_text slackPost).2,
          [alert_text])
      else ([], [])
    let emailPart : List LogRecord × List String :=
      if cfg.alert_email_to != "" then
        ((send_email_alert cfg cfg.alert_email_to cfg.alert_email_from
            ("Health alert: " ++ url) alert_text smtp).logs, [alert_text])
      else ([], [])
    ⟨[entry, .alert alert_text] ++ slackPart.1 ++ emailPart.1,
      slackPart.2, emailPart.2⟩
  else ⟨[entry], [], []⟩

/-- One element of the list returned by `run_checks_once`:
`{"url": url, "status": status}`. -/
structure ResultEntry where
  url : String
  status : String
deriving DecidableEq

/-- The loop body of `run_checks_once`, with the iteration index made
explicit so that per-iteration effect outcomes (probe, channel posts, clock)
can be supplied as functions.  Returns the accumulated result list and the
concatenated log traces, in loop order. -/
def runAux (cfg : Config) (prober : String → HttpOutcome)
    (slackPosts : Nat → HttpOutcome) (smtps : Nat → SmtpOutcome)
    (clock : Nat → String) : Nat → List String →
    List ResultEntry × List LogRecord
  | _, [] => ([], [])
  | i, url :: rest =>
    let status := check_url (prober url)
    let t := log_result cfg (clock i) url status (slackPosts i) (smtps i)
    let r := runAux cfg prober slackPosts smtps clock (i + 1) rest
    (⟨url, status⟩ :: r.1, t.logs ++ r.2)

/-- Embedding of `run_checks_once`: parses the `URLS` value and runs the
check loop over the resulting endpoint list.  `prober` gives the probe
outcome for each URL (deterministic per URL); `clock` gives the timestamp of
each iteration. -/
def run_checks_once (cfg : Config) (urlsEnv : String)
    (prober : String → HttpOutcome) (slackPosts : Nat → HttpOutcome)
    (smtps : Nat → SmtpOutcome) (clock : Nat → String) :
    List ResultEntry × List LogRecord :=
  runAux cfg prober slackPosts smtps clock 0 (parse_urls urlsEnv)

/-- Erases the timestamp field of a result record; used to compare log
traces of two runs up to timestamps. -/
def eraseTs : LogRecord → LogRecord
  | .result _ url status => .result ("") url status
  | r => r

/-- Number of ALERT records in a trace. -/
def countAlerts (l : List LogRecord) : Nat :=
  l.countP fun r => match r with | .alert _ => true | _ => false

/-- Configuration with SMTP server and port set but `SMTP_USER` unset,
used to exhibit the vacuous `SMTP_USER is not None` guard. -/
def c2Cfg : Config :=
  ⟨"", "", "ops@example.com", "health-checker@example.com",
    "smtp.example.com", some 587, "", ""⟩

/-- Configuration with both alert channels enabled. -/
def bothChanCfg : Config :=
  ⟨"", "https://hooks.example.com/T000", "ops@example.com",
    "health-checker@example.com", "smtp.example.com", some 465,
    "mailer", "secret"⟩

/-- Configuration with no alert channel enabled. -/
def noChanCfg : Config :=
  ⟨"", "", "", "health-checker@example.com", "", none, "", ""⟩

/-! Helper lemmas. -/

theorem hasPre_DOWN (rest : List Char) :
    listHasPre "DOWN".data ('D' :: 'O' :: 'W' :: 'N' :: rest) = true := rfl

theorem hasSub_DOWN (rest : List Char) :
    listHasSub "DOWN".data ('D' :: 'O' :: 'W' :: 'N' :: rest) = true := rfl

theorem startsWithDOWN_code (s t : String) :
    startsWithDOWN ("DOWN (" ++ s ++ t) = true := by
  unfold startsWithDOWN
  rw [String.data_append, String.data_append]
  exact hasPre_DOWN _

theorem containsDOWN_code (s t : String) :
    containsDOWN ("DOWN (" ++ s ++ t) = true := by
  unfold containsDOWN
  rw [String.data_append, String.data_append]
  exact hasSub_DOWN _

theorem startsWithDOWN_err (s t : String) :
    startsWithDOWN ("DOWN (Error: " ++ s ++ t) = true := by
  unfold startsWithDOWN
  rw [String.data_append, String.data_append]
  exact hasPre_DOWN _

theorem containsDOWN_err (s t : String) :
    containsDOWN ("DOWN (Error: " ++ s ++ t) = true := by
  unfold containsDOWN
  rw [String.data_append, String.data_append]
  exact hasSub_DOWN _

theorem check_url_old_eq (o : HttpOutcome) : check_url_old o = check_url o := by
  cases o <;> rfl

/-- The dispatcher's textual test `status.startswith("DOWN")` agrees with the
semantic down-ness of the probe outcome that produced the status. -/
theorem startsWithDOWN_check_url (o : HttpOutcome) :
    startsWithDOWN (check_url o) = isDownOutcome o := by
  cases o with
  | response code =>
    by_cases h : code = 200
    · subst h; rfl
    · simp only [check_url, isDownOutcome, if_neg h]
      exact startsWithDOWN_code _ _
  | transportError e =>
    simp only [check_url, isDownOutcome]
    exact startsWithDOWN_err _ _

theorem pyStrip_eq_nil_of_all_ws (l : List Char)
    (h : ∀ c ∈ l, isPySpace c = true) : pyStrip l = [] := by
  unfold pyStrip
  have h1 : l.dropWhile isPySpace = [] := List.dropWhile_eq_nil_iff.mpr h
  simp [h1]

/-- Every character of every segment of `splitComma l` is a non-comma
character of `l`. -/
theorem splitComma_chars (l : List Char) :
    ∀ seg ∈ splitComma l, ∀ c ∈ seg, c ∈ l ∧ c ≠ ',' := by
  induction l with
  | nil =>
    intro seg hseg c hc
    simp [splitComma] at hseg
    subst hseg
    simp at hc
  | cons a cs ih =>
    intro seg hseg c hc
    by_cases ha : a = ','
    · simp [splitComma, ha] at hseg
      rcases hseg with h1 | h2
      · subst h1; simp at hc
      · have := ih seg h2 c hc
        exact ⟨List.mem_cons_of_mem _ this.1, this.2⟩
    · rw [splitComma] at hseg
      rw [if_neg ha] at hseg
      rcases hs : splitComma cs with _ | ⟨seg0, rest⟩
      · rw [hs] at hseg
        simp at hseg
        subst hseg
        simp at hc
        subst hc
        exact ⟨List.mem_cons_self _ _, ha⟩
      · rw [hs] at hseg
        simp at hseg
        rcases hseg with h1 | h2
        · subst h1
          rcases List.mem_cons.mp hc with h | h
          · subst h; exact ⟨List.mem_cons_self _ _, ha⟩
          · have hmem : seg0 ∈ splitComma cs := by
              rw [hs]; exact List.mem_cons_self _ _
            have := ih seg0 hmem c h
            exact ⟨List.mem_cons_of_mem _ this.1, this.2⟩
        · have hmem : seg ∈ splitComma cs := by
            rw [hs]; exact List.mem_cons_of_mem _ h2
          have := ih seg hmem c hc
          exact ⟨List.mem_cons_of_mem _ this.1, this.2⟩

/-- The list comprehension of `parse_urls` written as map-then-filter. -/
theorem filterMap_strip_eq (l : List (List Char)) :
    (l.filterMap fun u =>
      if pyStrip u ≠ [] then some (String.mk (pyStrip u)) else none) =
    ((l.map pyStrip).filter fun u => u != []).map String.mk := by
  induction l with
  | nil => rfl
  | cons a t ih =>
    by_cases h : pyStrip a = []
    · simp only [List.filterMap_cons, List.map_cons, List.filter_cons,
        ite_not] at ih ⊢
      simp [h, ih]
    · simp only [List.filterMap_cons, List.map_cons, List.filter_cons,
        ite_not] at ih ⊢
      simp [h, ih]

theorem countAlerts_append (a b : List LogRecord) :
    countAlerts (a ++ b) = countAlerts a + countAlerts b := by
  simp [countAlerts, List.countP_append]

theorem countAlerts_slack (w t : String) (p : HttpOutcome) :
    countAlerts (send_slack_alert w t p).2 = 0 := by
  cases p <;> rfl

theorem countAlerts_email (cfg : Config) (a b c d : String)
    (sm : SmtpOutcome) :
    countAlerts (send_email_alert cfg a b c d sm).logs = 0 := by
  unfold send_email_alert
  split
  · rfl
  · cases sm <;> rfl

/-- Explicit form of the trace of `log_result` on a DOWN status. -/
theorem log_result_down (cfg : Config) (ts url status : String)
    (sp : HttpOutcome) (sm : SmtpOutcome)
    (h : startsWithDOWN status = true) :
    log_result cfg ts url status sp sm =
      ⟨[.result ts url status, .alert ("⚠️ " ++ url ++ " is " ++ status)] ++
        (if cfg.slack_webhook != "" then
          (send_slack_alert cfg.slack_webhook
            ("⚠️ " ++ url ++ " is " ++ status) sp).2 else []) ++
        (if cfg.alert_email_to != "" then
          (send_email_alert cfg cfg.alert_email_to cfg.alert_email_from
            ("Health alert: " ++ url)
            ("⚠️ " ++ url ++ " is " ++ status) sm).logs else []),
        (if cfg.slack_webhook != "" then
          ["⚠️ " ++ url ++ " is " ++ status] else []),
        (if cfg.alert_email_to != "" then
          ["⚠️ " ++ url ++ " is " ++ status] else [])⟩ := by
  unfold log_result
  simp only [h, if_true]
  by_cases hs : cfg.slack_webhook != "" <;>
    by_cases he : cfg.alert_email_to != "" <;>
      simp [hs, he]

/-- Explicit form of the trace of `log_result` on a non-DOWN status. -/
theorem log_result_up (cfg : Config) (ts url status : String)
    (sp : HttpOutcome) (sm : SmtpOutcome)
    (h : startsWithDOWN status = false) :
    log_result cfg ts url status sp sm = ⟨[.result ts url status], [], []⟩ := by
  unfold log_result
  simp only [h]
  simp

/-- The trace of `log_result` on a DOWN status contains exactly one ALERT
record, whatever the configuration and channel outcomes. -/
theorem countAlerts_log_result_down (cfg : Config) (ts url status : String)
    (sp : HttpOutcome) (sm : SmtpOutcome)
    (h : startsWithDOWN status = true) :
    countAlerts (log_result cfg ts url status sp sm).logs = 1 := by
  rw [log_result_down cfg ts url status sp sm h]
  rw [countAlerts_append, countAlerts_append]
  have h1 : countAlerts
      [LogRecord.result ts url status,
        .alert ("⚠️ " ++ url ++ " is " ++ status)] = 1 := rfl
  have h0 : countAlerts ([] : List LogRecord) = 0 := rfl
  rw [h1]
  by_cases hs : bothChanCfg.slack_webhook != "" <;>
    by_cases hsl : cfg.slack_webhook != "" <;>
      by_cases he : cfg.alert_email_to != "" <;>
        simp [hsl, he, countAlerts_slack, countAlerts_email, h0]

theorem runAux_fst (cfg : Config) (prober : String → HttpOutcome)
    (sp : Nat → HttpOutcome) (sm : Nat → SmtpOutcome)
    (clock : Nat → String) :
    ∀ (i : Nat) (urls : List String),
      (runAux cfg prober sp sm clock i urls).1 =
        urls.map fun u => ⟨u, check_url (prober u)⟩ := by
  intro i urls
  induction urls generalizing i with
  | nil => rfl
  | cons u rest ih => simp [runAux, ih]

theorem runAux_snd (cfg : Config) (prober : String → HttpOutcome)
    (sp : Nat → HttpOutcome) (sm : Nat → SmtpOutcome)
    (clock : Nat → String) :
    ∀ (i : Nat) (urls : List String),
      (runAux cfg prober sp sm clock i urls).2 =
        ((urls.enumFrom i).map fun p =>
          (log_result cfg (clock p.1) p.2 (check_url (prober p.2))
            (sp p.1) (sm p.1)).logs).flatten := by
  intro i urls
  induction urls generalizing i with
  | nil => rfl
  | cons u rest ih => simp [runAux, List.enumFrom, ih]

/-- The map-`eraseTs` image of a `log_result` trace does not depend on the
timestamp. -/
theorem log_result_logs_eraseTs (cfg : Config) (ts ts2 url status : String)
    (sp : HttpOutcome) (sm : SmtpOutcome) :
    ((log_result cfg ts url status sp sm).logs).map eraseTs =
    ((log_result cfg ts2 url status sp sm).logs).map eraseTs := by
  cases h : startsWithDOWN status with
  | false =>
    rw [log_result_up cfg ts url status sp sm h,
      log_result_up cfg ts2 url status sp sm h]
    rfl
  | true =>
    rw [log_result_down cfg ts url status sp sm h,
      log_result_down cfg ts2 url status sp sm h]
    simp [eraseTs]

theorem runAux_snd_eraseTs (cfg : Config) (prober : String → HttpOutcome)
    (sp : Nat → HttpOutcome) (sm : Nat → SmtpOutcome)
    (clock₁ clock₂ : Nat → String) :
    ∀ (i : Nat) (urls : List String),
      ((runAux cfg prober sp sm clock₁ i urls).2).map eraseTs =
      ((runAux cfg prober sp sm clock₂ i urls).2).map eraseTs := by
  intro i urls
  induction urls generalizing i with
  | nil => rfl
  | cons u rest ih =>
    simp only [runAux, List.map_append]
    rw [ih, log_result_logs_eraseTs cfg (clock₁ i) (clock₂ i)]

/-! Claim theorems. -/

/-- C1: the probe classifies every outcome as a returned value: an HTTP 200
response yields the UP status, a response with any other status code yields
a DOWN status carrying that code, and a transport failure yields a DOWN
status carrying the error description.  `check_url` being a total function
embeds the source's `except` handler: no exception escapes the probe
boundary. -/
theorem c1_probe_classification :
    check_url (.response 200) = "UP"
    ∧ (∀ code : Nat, code ≠ 200 →
        check_url (.response code) = "DOWN (" ++ toString code ++ ")")
    ∧ (∀ e : String,
        check_url (.transportError e) = "DOWN (Error: " ++ e ++ ")") := by
  refine ⟨rfl, fun code h => ?_, fun e => rfl⟩
  simp [check_url, h]

theorem c1_probe_classification_witness :
    check_url (.response 404) = "DOWN (" ++ toString 404 ++ ")" :=
  c1_probe_classification.2.1 404 (by decide)

/-- C2 (code bug): with SMTP server and port configured but `SMTP_USER`
unset, the guard `SMTP_SERVER and SMTP_PORT and SMTP_USER is not None` is
satisfied because `SMTP_USER` is a string and never `None`, so
`send_email_alert` opens an SMTP connection and attempts delivery instead
of returning `false` with a "not configured" note. -/
theorem c2_unconfigured_user_attempts_delivery :
    c2Cfg.smtp_user = ""
    ∧ send_email_alert c2Cfg ("ops@example.com")
        ("health-checker@example.com") ("Health alert: https://x.test")
        ("⚠️ https://x.test is DOWN (500)") .delivered
      = ⟨true, true, []⟩ :=
  ⟨rfl, rfl⟩

/-- C3: on a DOWN status the dispatcher emits exactly one ALERT record and
invokes each enabled channel (webhook enabled iff its URL is non-empty,
email enabled iff a destination address is configured) with the alert
message — and it does so for every combination of channel outcomes, so a
failure returned by or raised inside one channel never prevents the
invocation of the other. -/
theorem c3_alert_fanout (cfg : Config) (ts url status : String)
    (sp : HttpOutcome) (sm : SmtpOutcome)
    (h : startsWithDOWN status = true) :
    countAlerts (log_result cfg ts url status sp sm).logs = 1
    ∧ (log_result cfg ts url status sp sm).slackCalls =
        (if cfg.slack_webhook != "" then
          ["⚠️ " ++ url ++ " is " ++ status] else [])
    ∧ (log_result cfg ts url status sp sm).emailCalls =
        (if cfg.alert_email_to != "" then
          ["⚠️ " ++ url ++ " is " ++ status] else []) := by
  refine ⟨countAlerts_log_result_down cfg ts url status sp sm h, ?_, ?_⟩
  · rw [log_result_down cfg ts url status sp sm h]
  · rw [log_result_down cfg ts url status sp sm h]

theorem c3_alert_fanout_witness :
    countAlerts (log_result bothChanCfg ("t0") ("https://x.test")
      ("DOWN (500)") (.transportError ("timeout")) .delivered).logs = 1
    ∧ (log_result bothChanCfg ("t0") ("https://x.test") ("DOWN (500)")
        (.transportError ("timeout")) .delivered).slackCalls =
        (if bothChanCfg.slack_webhook != "" then
          ["⚠️ " ++ "https://x.test" ++ " is " ++ "DOWN (500)"] else [])
    ∧ (log_result bothChanCfg ("t0") ("https://x.test") ("DOWN (500)")
        (.transportError ("timeout")) .delivered).emailCalls =
        (if bothChanCfg.alert_email_to != "" then
          ["⚠️ " ++ "https://x.test" ++ " is " ++ "DOWN (500)"] else []) :=
  c3_alert_fanout bothChanCfg ("t0") ("https://x.test") ("DOWN (500)")
    (.transportError ("timeout")) .delivered rfl

/-- C4: for an UP probe outcome the dispatcher does nothing — the trace is
only the result entry, with no ALERT record and no channel invocation; for
a down probe outcome exactly one ALERT record is emitted whatever the
channel configuration, in particular also when no channel is enabled. -/
theorem c4_dispatch_gate (cfg : Config) (ts url : String)
    (o : HttpOutcome) (sp : HttpOutcome) (sm : SmtpOutcome) :
    (isDownOutcome o = false →
      log_result cfg ts url (check_url o) sp sm =
        ⟨[.result ts url ("UP")], [], []⟩)
    ∧ (isDownOutcome o = true →
      countAlerts (log_result cfg ts url (check_url o) sp sm).logs = 1) := by
  constructor
  · intro h
    have hup : check_url o = "UP" := by
      cases o with
      | response code =>
        by_cases hc : code = 200
        · subst hc; rfl
        · simp [isDownOutcome, hc] at h
      | transportError e => simp [isDownOutcome] at h
    rw [hup]
    exact log_result_up cfg ts url ("UP") sp sm rfl
  · intro h
    have hd : startsWithDOWN (check_url o) = true := by
      rw [startsWithDOWN_check_url]; exact h
    exact countAlerts_log_result_down cfg ts url (check_url o) sp sm hd

theorem c4_dispatch_gate_witness :
    log_result noChanCfg ("t0") ("https://ok.test")
      (check_url (.response 200)) (.response 200) .delivered =
      ⟨[.result ("t0") ("https://ok.test") ("UP")], [], []⟩
    ∧ countAlerts (log_result noChanCfg ("t0") ("https://fail.test")
        (check_url (.response 503)) (.response 200) .delivered).logs = 1 :=
  ⟨(c4_dispatch_gate noChanCfg ("t0") ("https://ok.test") (.response 200)
      (.response 200) .delivered).1 rfl,
    (c4_dispatch_gate noChanCfg ("t0") ("https://fail.test") (.response 503)
      (.response 200) .delivered).2 rfl⟩

/-- C5: one run of the orchestrator processes the parsed endpoint list
strictly in sequence order — per endpoint: probe, then log the result
record, then dispatch, then accumulate — returning exactly one result per
endpoint in the same order; both components are total functions of the
inputs for every prober, including probers that fail every probe, so a
single endpoint's probe failure never aborts the run or omits a result. -/
theorem c5_run_order (cfg : Config) (urlsEnv : String)
    (prober : String → HttpOutcome) (sp : Nat → HttpOutcome)
    (sm : Nat → SmtpOutcome) (clock : Nat → String) :
    (run_checks_once cfg urlsEnv prober sp sm clock).1 =
      (parse_urls urlsEnv).map (fun u => ⟨u, check_url (prober u)⟩)
    ∧ (run_checks_once cfg urlsEnv prober sp sm clock).2 =
      (((parse_urls urlsEnv).enum).map fun p =>
        (log_result cfg (clock p.1) p.2 (check_url (prober p.2))
          (sp p.1) (sm p.1)).logs).flatten :=
  ⟨runAux_fst cfg prober sp sm clock 0 (parse_urls urlsEnv),
    runAux_snd cfg prober sp sm clock 0 (parse_urls urlsEnv)⟩

/-- C6: `emit_log` writes the serialized record to the primary stream
unconditionally — it is always the first line of the call's primary
output — and when a secondary log file is configured and the file write
fails, the failure is swallowed: the file receives nothing and an error
note follows the record on the primary stream.  Totality of `emit_log`
embeds that the logger never raises into its caller. -/
theorem c6_emit_log (log_file : String) (entry : LogRecord)
    (fw : FileWriteOutcome) :
    (emit_log log_file entry fw).primary.head? = some (serialize entry)
    ∧ (∀ e, log_file ≠ "" → fw = .failure e →
        (emit_log log_file entry fw).primary =
          [serialize entry,
            serialize (.error ("failed to write log file: " ++ e))]
        ∧ (emit_log log_file entry fw).fileWrites = []) := by
  constructor
  · unfold emit_log
    by_cases h : log_file ≠ ""
    · rw [if_pos h]; cases fw <;> rfl
    · rw [if_neg h]
      rfl
  · intro e hlf hfw
    subst hfw
    unfold emit_log
    rw [if_pos hlf]
    exact ⟨rfl, rfl⟩

theorem c6_emit_log_witness :
    (emit_log ("logs/health.log") (.alert ("x"))
      (.failure ("disk full"))).primary =
      [serialize (.alert ("x")),
        serialize (.error ("failed to write log file: disk full"))]
    ∧ (emit_log ("logs/health.log") (.alert ("x"))
        (.failure ("disk full"))).fileWrites = [] :=
  (c6_emit_log ("logs/health.log") (.alert ("x"))
    (.failure ("disk full"))).2 ("disk full") (by decide) rfl

/-- C7: the webhook send returns `true` exactly when the POST produced an
HTTP 200 response; a raised exception or timeout is caught and logged via
the event logger and the function returns `false` — it is total, so
nothing propagates past the channel boundary. -/
theorem c7_slack_send (webhook text : String) (post : HttpOutcome) :
    ((send_slack_alert webhook text post).1 = true ↔ post = .response 200)
    ∧ (∀ e, post = .transportError e →
        (send_slack_alert webhook text post).1 = false
        ∧ (send_slack_alert webhook text post).2 =
            [.error ("slack send failed: " ++ e)]) := by
  constructor
  · cases post with
    | response code => simp [send_slack_alert]
    | transportError e => simp [send_slack_alert]
  · intro e h
    subst h
    exact ⟨rfl, rfl⟩

theorem c7_slack_send_witness :
    (send_slack_alert ("https://hooks.example.com/T000") ("m")
      (.transportError ("timeout"))).1 = false
    ∧ (send_slack_alert ("https://hooks.example.com/T000") ("m")
        (.transportError ("timeout"))).2 =
        [.error ("slack send failed: timeout")] :=
  (c7_slack_send ("https://hooks.example.com/T000") ("m")
    (.transportError ("timeout"))).2 ("timeout") rfl

/-- C8: two runs with the same prober behaviour (and the same channel
outcomes) differ only in timestamps: the returned result sequences are
identical, and the emitted log traces are identical after erasing the
timestamp field. -/
theorem c8_two_runs (cfg : Config) (urlsEnv : String)
    (prober : String → HttpOutcome) (sp : Nat → HttpOutcome)
    (sm : Nat → SmtpOutcome) (clock₁ clock₂ : Nat → String) :
    (run_checks_once cfg urlsEnv prober sp sm clock₁).1 =
      (run_checks_once cfg urlsEnv prober sp sm clock₂).1
    ∧ ((run_checks_once cfg urlsEnv prober sp sm clock₁).2).map eraseTs =
      ((run_checks_once cfg urlsEnv prober sp sm clock₂).2).map eraseTs := by
  constructor
  · unfold run_checks_once
    rw [runAux_fst cfg prober sp sm clock₁, runAux_fst cfg prober sp sm clock₂]
  · exact runAux_snd_eraseTs cfg prober sp sm clock₁ clock₂ 0
      (parse_urls urlsEnv)

/-- C9: when the stripped URLS value is non-empty, the endpoint list is the
comma-split segments stripped of surrounding whitespace with empty segments
removed; a value of only commas and whitespace therefore yields an empty
endpoint list; and the default URLs are used exactly when the stripped
value is empty (unset, empty or whitespace-only). -/
theorem c9_parse_urls (env : String) :
    (pyStrip env.data ≠ [] →
      parse_urls env =
        (((splitComma env.data).map pyStrip).filter fun u => u != []).map
          String.mk)
    ∧ (pyStrip env.data ≠ [] →
        (∀ c ∈ env.data, c = ',' ∨ isPySpace c = true) →
        parse_urls env = [])
    ∧ (pyStrip env.data = [] → parse_urls env = DEFAULT_URLS) := by
  refine ⟨fun h => ?_, fun h hcw => ?_, fun h => ?_⟩
  · unfold parse_urls
    rw [if_pos h]
    exact filterMap_strip_eq _
  · unfold parse_urls
    rw [if_pos h]
    apply List.filterMap_eq_nil_iff.mpr
    intro u hu
    have hws : ∀ c ∈ u, isPySpace c = true := by
      intro c hc
      have h2 := splitComma_chars env.data u hu c hc
      rcases hcw c h2.1 with hcomma | hspace
      · exact absurd hcomma h2.2
      · exact hspace
    rw [if_neg]
    simp [pyStrip_eq_nil_of_all_ws u hws]
  · unfold parse_urls
    rw [if_neg (not_not_intro h)]

theorem c9_parse_urls_witness :
    parse_urls (", ,") = []
    ∧ parse_urls ("  ") = DEFAULT_URLS
    ∧ parse_urls (" a ,b ") =
        (((splitComma (" a ,b ").data).map pyStrip).filter
          fun u => u != []).map String.mk :=
  ⟨(c9_parse_urls (", ,")).2.1 (by decide) (by decide),
    (c9_parse_urls ("  ")).2.2 (by decide),
    (c9_parse_urls (" a ,b ")).1 (by decide)⟩

/-- C10: the current `check_url` returns exactly the same status string as
the older one on every outcome, and on every status string the versions can
produce, the older alert condition (the substring test for "DOWN") and the
current one (the status starts with "DOWN") coincide — so the two revisions
alert on exactly the same results. -/
theorem c10_refinement :
    (∀ o, check_url_old o = check_url o)
    ∧ (∀ o, containsDOWN (check_url o) = startsWithDOWN (check_url o))
    ∧ (∀ o, containsDOWN (check_url_old o) =
        startsWithDOWN (check_url_old o)) := by
  have h2 : ∀ o, containsDOWN (check_url o) = startsWithDOWN (check_url o) := by
    intro o
    cases o with
    | response code =>
      by_cases hc : code = 200
      · subst hc; rfl
      · simp only [check_url, if_neg hc]
        rw [containsDOWN_code, startsWithDOWN_code]
    | transportError e =>
      simp only [check_url]
      rw [containsDOWN_err, startsWithDOWN_err]
  refine ⟨check_url_old_eq, h2, fun o => ?_⟩
  rw [check_url_old_eq o]
  exact h2 o

end HealthChecker
